import Mathlib

/-!
Verification of the retrying verified HTTP call helpers of
`src/utils/apiCallHelper.ts` (functions `getAPI`, `postAPI`, `putAPI`,
`deleteAPI` and `createRandomUsersRequestBody`).

Embedding choices:
* A Playwright `APIResponse` is a status code, a header list, and the result
  of `await response.json()` — either the parsed structured body or the error
  thrown while parsing (type `Except String J`).
* The `APIRequestContext` collaborator is a record of four executor
  functions (`get`/`post`/`put`/`delete`).  Each executor additionally takes
  the zero-based attempt index, so that "the executor returns X on attempt k"
  is expressible; an executor may throw (result `Except String _`), modelling
  network-level failures.
* A zod schema `ZodTypeAny` is a function `J → Except String J`:
  `schema.parse` either returns the parsed value or throws a `ZodError`.
* Every observable effect of a call is recorded in an event trace:
  one `request` event per issued HTTP request, one `jsonParse` /
  `schemaValidate` event per body parse / schema validation, and one
  `diagnostic` event per `console.log` line.
* TypeScript `number` arguments that the code compares or loops on
  (`expectedStatusCode`, `retryCount`, `amountOfUsers`) are modelled as `Int`;
  a `for (let i = 0; i < n; i++)` loop over an integer `n` runs
  `n.toNat` iterations.
-/

instance {ε α : Type} [DecidableEq ε] [DecidableEq α] :
    DecidableEq (Except ε α) := fun a b =>
  match a, b with
  | .error e, .error f => decidable_of_iff (e = f) (by simp)
  | .error _, .ok _ => .isFalse (by simp)
  | .ok _, .error _ => .isFalse (by simp)
  | .ok x, .ok y => decidable_of_iff (x = y) (by simp)

/-- Playwright-style API response: observed status code, headers, and the
result of `await response.json()` (the parsed structured body, or the error
thrown while parsing). -/
structure APIResponse (J : Type) where
  status : Int
  headers : List (String × String)
  json : Except String J
  deriving DecidableEq, Repr

/-- Errors a helper call can throw: an exception propagated from the request
executor, an error thrown by `response.json()`, a `ZodError` thrown by
`expectedSchema.parse`, or the terminal exhaustion error. -/
inductive CallError where
  | execError (message : String)
  | jsonError (message : String)
  | schemaError (message : String)
  | maxRetries
  deriving DecidableEq, Repr

/-- Message of the thrown `Error` object. -/
def CallError.message : CallError → String
  | .execError m => m
  | .jsonError m => m
  | .schemaError m => m
  | .maxRetries => "Max retries reached. API call failed."

/-- Observable events of one helper call, in order: an HTTP request issued on
a (zero-based) attempt, a `response.json()` body parse, a
`expectedSchema.parse` schema validation, a `console.log` diagnostic line. -/
inductive CallEvent where
  | request (attemptIndex : Nat)
  | jsonParse (attemptIndex : Nat)
  | schemaValidate (attemptIndex : Nat)
  | diagnostic (line : String)
  deriving DecidableEq, Repr

/-- The `console.log` line emitted on a failed attempt:
`Attempt ${i + 1} failed. Retrying for ${url}...` -/
def diagnosticLine (attemptNumber : Nat) (url : String) : String :=
  s!"Attempt {attemptNumber} failed. Retrying for {url}..."

/-- Playwright `APIRequestContext` collaborator: one executor per HTTP
method.  `get` takes the URL, query parameters and headers; `post`/`put`
take the URL and a request body (type `B`); `delete` takes only the URL.
The final `Nat` is the zero-based attempt index; a `.error` result models
the executor throwing. -/
structure APIRequestContext (B J : Type) where
  get : String → List (String × String) → List (String × String) → Nat →
    Except String (APIResponse J)
  post : String → B → Nat → Except String (APIResponse J)
  put : String → B → Nat → Except String (APIResponse J)
  delete : String → Nat → Except String (APIResponse J)

/-- Number of `request` events in a trace, i.e. HTTP requests issued. -/
def requestCount (trace : List CallEvent) : Nat :=
  trace.countP fun e => match e with
    | .request _ => true
    | _ => false

/-- The diagnostic (`console.log`) lines of a trace, in emission order. -/
def diagnosticLines (trace : List CallEvent) : List String :=
  trace.filterMap fun e => match e with
    | .diagnostic line => some line
    | _ => none

/-- The zero-based attempt indices of the `request` events of a trace whose
observed status code did not match the expected one (the executor returned
a response there with a different status; matching and throwing attempts
are excluded). -/
def mismatchedRequests {J : Type} (exec : Nat → Except String (APIResponse J))
    (expectedStatusCode : Int) (trace : List CallEvent) : List Nat :=
  trace.filterMap fun e => match e with
    | .request j =>
      match exec j with
      | .ok r => if r.status = expectedStatusCode then none else some j
      | .error _ => none
    | _ => none

/-- Retry loop of `getAPI` (`for (let i = 0; i < retryCount; i++) ...`
followed by `throw new Error("Max retries reached. API call failed.")`).
`i` is the current loop index and `fuel` the number of remaining loop
iterations (`retryCount - i`).  Each iteration: issue the GET request; if the
observed status equals `expectedStatusCode`, parse the body
(`response.json()`), validate it (`expectedSchema.parse`) and return the
response; otherwise log a diagnostic and continue. -/
def getAPILoop {B J : Type} (request : APIRequestContext B J) (url : String)
    (expectedStatusCode : Int) (expectedSchema : J → Except String J)
    (parameters headers : List (String × String)) :
    Nat → Nat → Except CallError (APIResponse J) × List CallEvent
  | _, 0 => (.error .maxRetries, [])
  | i, fuel + 1 =>
    match request.get url parameters headers i with
    | .error e => (.error (.execError e), [.request i])
    | .ok response =>
      if response.status = expectedStatusCode then
        match response.json with
        | .error e => (.error (.jsonError e), [.request i, .jsonParse i])
        | .ok responseBodyJson =>
          match expectedSchema responseBodyJson with
          | .error e =>
            (.error (.schemaError e), [.request i, .jsonParse i, .schemaValidate i])
          | .ok _ => (.ok response, [.request i, .jsonParse i, .schemaValidate i])
      else
        let rest := getAPILoop request url expectedStatusCode expectedSchema
          parameters headers (i + 1) fuel
        (rest.1, .request i :: .diagnostic (diagnosticLine (i + 1) url) :: rest.2)

/-- `getAPI` of `src/utils/apiCallHelper.ts`: reusable GET with retry logic.
Optional `parameters` and `headers` default to the empty object and
`retryCount` defaults to 5.  Returns the thrown error or the returned
response, paired with the trace of observable events. -/
def getAPI {B J : Type} (request : APIRequestContext B J) (url : String)
    (expectedStatusCode : Int) (expectedSchema : J → Except String J)
    (parameters : List (String × String) := [])
    (headers : List (String × String) := [])
    (retryCount : Int := 5) :
    Except CallError (APIResponse J) × List CallEvent :=
  getAPILoop request url expectedStatusCode expectedSchema parameters headers
    0 retryCount.toNat

/-- Retry loop of `postAPI`; identical to `getAPILoop` except that the
request issued is `request.post(url, { data: requestBody })`. -/
def postAPILoop {B J : Type} (request : APIRequestContext B J) (url : String)
    (requestBody : B) (expectedStatusCode : Int)
    (expectedSchema : J → Except String J) :
    Nat → Nat → Except CallError (APIResponse J) × List CallEvent
  | _, 0 => (.error .maxRetries, [])
  | i, fuel + 1 =>
    match request.post url requestBody i with
    | .error e => (.error (.execError e), [.request i])
    | .ok response =>
      if response.status = expectedStatusCode then
        match response.json with
        | .error e => (.error (.jsonError e), [.request i, .jsonParse i])
        | .ok responseBodyJson =>
          match expectedSchema responseBodyJson with
          | .error e =>
            (.error (.schemaError e), [.request i, .jsonParse i, .schemaValidate i])
          | .ok _ => (.ok response, [.request i, .jsonParse i, .schemaValidate i])
      else
        let rest := postAPILoop request url requestBody expectedStatusCode
          expectedSchema (i + 1) fuel
        (rest.1, .request i :: .diagnostic (diagnosticLine (i + 1) url) :: rest.2)

/-- `postAPI` of `src/utils/apiCallHelper.ts`: reusable POST with retry
logic; `retryCount` defaults to 5. -/
def postAPI {B J : Type} (request : APIRequestContext B J) (url : String)
    (requestBody : B) (expectedStatusCode : Int)
    (expectedSchema : J → Except String J) (retryCount : Int := 5) :
    Except CallError (APIResponse J) × List CallEvent :=
  postAPILoop request url requestBody expectedStatusCode expectedSchema
    0 retryCount.toNat

/-- Retry loop of `putAPI`; identical to `getAPILoop` except that the
request issued is `request.put(url, { data: requestBody })`. -/
def putAPILoop {B J : Type} (request : APIRequestContext B J) (url : String)
    (requestBody : B) (expectedStatusCode : Int)
    (expectedSchema : J → Except String J) :
    Nat → Nat → Except CallError (APIResponse J) × List CallEvent
  | _, 0 => (.error .maxRetries, [])
  | i, fuel + 1 =>
    match request.put url requestBody i with
    | .error e => (.error (.execError e), [.request i])
    | .ok response =>
      if response.status = expectedStatusCode then
        match response.json with
        | .error e => (.error (.jsonError e), [.request i, .jsonParse i])
        | .ok responseBodyJson =>
          match expectedSchema responseBodyJson with
          | .error e =>
            (.error (.schemaError e), [.request i, .jsonParse i, .schemaValidate i])
          | .ok _ => (.ok response, [.request i, .jsonParse i, .schemaValidate i])
      else
        let rest := putAPILoop request url requestBody expectedStatusCode
          expectedSchema (i + 1) fuel
        (rest.1, .request i :: .diagnostic (diagnosticLine (i + 1) url) :: rest.2)

/-- `putAPI` of `src/utils/apiCallHelper.ts`: reusable PUT with retry
logic; `retryCount` defaults to 5. -/
def putAPI {B J : Type} (request : APIRequestContext B J) (url : String)
    (requestBody : B) (expectedStatusCode : Int)
    (expectedSchema : J → Except String J) (retryCount : Int := 5) :
    Except CallError (APIResponse J) × List CallEvent :=
  putAPILoop request url requestBody expectedStatusCode expectedSchema
    0 retryCount.toNat

/-- Retry loop of `deleteAPI`; identical to `getAPILoop` except that the
request issued is `request.delete(url)`. -/
def deleteAPILoop {B J : Type} (request : APIRequestContext B J) (url : String)
    (expectedStatusCode : Int) (expectedSchema : J → Except String J) :
    Nat → Nat → Except CallError (APIResponse J) × List CallEvent
  | _, 0 => (.error .maxRetries, [])
  | i, fuel + 1 =>
    match request.delete url i with
    | .error e => (.error (.execError e), [.request i])
    | .ok response =>
      if response.status = expectedStatusCode then
        match response.json with
        | .error e => (.error (.jsonError e), [.request i, .jsonParse i])
        | .ok responseBodyJson =>
          match expectedSchema responseBodyJson with
          | .error e =>
            (.error (.schemaError e), [.request i, .jsonParse i, .schemaValidate i])
          | .ok _ => (.ok response, [.request i, .jsonParse i, .schemaValidate i])
      else
        let rest := deleteAPILoop request url expectedStatusCode expectedSchema
          (i + 1) fuel
        (rest.1, .request i :: .diagnostic (diagnosticLine (i + 1) url) :: rest.2)

/-- `deleteAPI` of `src/utils/apiCallHelper.ts`: reusable DELETE with retry
logic; `retryCount` defaults to 5. -/
def deleteAPI {B J : Type} (request : APIRequestContext B J) (url : String)
    (expectedStatusCode : Int) (expectedSchema : J → Except String J)
    (retryCount : Int := 5) :
    Except CallError (APIResponse J) × List CallEvent :=
  deleteAPILoop request url expectedStatusCode expectedSchema 0 retryCount.toNat

/-- Generic form of the (textually identical) retry loop shared by the four
helpers, abstracted over the executor call made inside the loop body.  Used
to state and prove properties once; each helper loop is proved equal to it. -/
def retryLoop {J : Type} (exec : Nat → Except String (APIResponse J))
    (url : String) (expectedStatusCode : Int)
    (expectedSchema : J → Except String J) :
    Nat → Nat → Except CallError (APIResponse J) × List CallEvent
  | _, 0 => (.error .maxRetries, [])
  | i, fuel + 1 =>
    match exec i with
    | .error e => (.error (.execError e), [.request i])
    | .ok response =>
      if response.status = expectedStatusCode then
        match response.json with
        | .error e => (.error (.jsonError e), [.request i, .jsonParse i])
        | .ok responseBodyJson =>
          match expectedSchema responseBodyJson with
          | .error e =>
            (.error (.schemaError e), [.request i, .jsonParse i, .schemaValidate i])
          | .ok _ => (.ok response, [.request i, .jsonParse i, .schemaValidate i])
      else
        let rest := retryLoop exec url expectedStatusCode expectedSchema (i + 1) fuel
        (rest.1, .request i :: .diagnostic (diagnosticLine (i + 1) url) :: rest.2)

/-- Tagged method variant of the spec's single request descriptor (§9): the
method together with exactly the options applicable to it — GET takes query
parameters and headers, POST and PUT take a request body, DELETE takes
neither. -/
inductive MethodRequest (B : Type) where
  | get (parameters headers : List (String × String))
  | post (requestBody : B)
  | put (requestBody : B)
  | delete
  deriving Repr

/-- Issue the HTTP request described by a tagged method variant through the
request context. -/
def MethodRequest.execute {B J : Type} (request : APIRequestContext B J)
    (url : String) : MethodRequest B → Nat → Except String (APIResponse J)
  | .get parameters headers, i => request.get url parameters headers i
  | .post requestBody, i => request.post url requestBody i
  | .put requestBody, i => request.put url requestBody i
  | .delete, i => request.delete url i

/-- Spec-side definition (spec §2, §4.1, §9): the one parameterized
"Retrying Verified HTTP Call" operation into which the four method variants
collapse — a single parameterized procedure over a tagged method variant,
with the identical retry/status/parse/validate/diagnostic/error behavior. -/
def apiCall {B J : Type} (request : APIRequestContext B J) (url : String)
    (method : MethodRequest B) (expectedStatusCode : Int)
    (expectedSchema : J → Except String J) (retryCount : Int := 5) :
    Except CallError (APIResponse J) × List CallEvent :=
  retryLoop (method.execute request url) url expectedStatusCode expectedSchema
    0 retryCount.toNat

/-- Trace produced by `m` consecutive failed (status-mismatch) attempts
starting at zero-based attempt index `i`: per attempt one `request` event and
one diagnostic line. -/
def mismatchTrace (url : String) : Nat → Nat → List CallEvent
  | _, 0 => []
  | i, m + 1 =>
    .request i :: .diagnostic (diagnosticLine (i + 1) url) ::
      mismatchTrace url (i + 1) m

/-- The executor returns a response with a non-matching status code on every
zero-based attempt index below `m` (in particular it does not throw there). -/
def mismatchBefore {J : Type} (exec : Nat → Except String (APIResponse J))
    (expectedStatusCode : Int) (m : Nat) : Prop :=
  ∀ j, j < m → ∃ r, exec j = .ok r ∧ r.status ≠ expectedStatusCode

/-- Fixture generator collaborator (the faker library): each generator takes
the zero-based loop iteration in which it is called, modelling one fresh
random value per call.  `numberInt lo hi` models
`faker.number.int({ min: lo, max: hi })`; the range contract is assumed as a
hypothesis where needed (spec §6). -/
structure Faker where
  numberInt : Int → Int → Nat → Int
  stringUuid : Nat → String
  personFirstName : Nat → String
  personLastName : Nat → String
  internetEmail : Nat → String
  internetPassword : Nat → String
  phoneNumber : Nat → String

/-- Shape of one element of the array built by
`createRandomUsersRequestBody`. -/
structure UserRequestBody where
  id : Int
  username : String
  firstName : String
  lastName : String
  email : String
  password : String
  phone : String
  userStatus : Int
  deriving DecidableEq, Repr

/-- `createRandomUsersRequestBody` of `src/utils/apiCallHelper.ts`: builds
`usersArray` by pushing one randomly generated user per iteration of
`for (let i = 0; i < amountOfUsers; i++)`. -/
def createRandomUsersRequestBody (fk : Faker) (amountOfUsers : Int) :
    List UserRequestBody :=
  (List.range amountOfUsers.toNat).map fun i =>
    { id := fk.numberInt 1 100000 i
      username := "TestUserName-test-automation-delete-me-" ++ fk.stringUuid i
      firstName := fk.personFirstName i
      lastName := fk.personLastName i
      email := fk.internetEmail i
      password := fk.internetPassword i
      phone := fk.phoneNumber i
      userStatus := fk.numberInt 0 10 i }

theorem getAPILoop_eq_retryLoop {B J : Type} (request : APIRequestContext B J)
    (url : String) (expectedStatusCode : Int)
    (expectedSchema : J → Except String J)
    (parameters headers : List (String × String)) :
    ∀ fuel i,
      getAPILoop request url expectedStatusCode expectedSchema parameters
          headers i fuel =
        retryLoop (fun n => request.get url parameters headers n) url
          expectedStatusCode expectedSchema i fuel := by
  intro fuel
  induction fuel with
  | zero => intro i; rfl
  | succ fuel ih =>
    intro i
    simp only [getAPILoop, retryLoop, ih]

theorem postAPILoop_eq_retryLoop {B J : Type} (request : APIRequestContext B J)
    (url : String) (requestBody : B) (expectedStatusCode : Int)
    (expectedSchema : J → Except String J) :
    ∀ fuel i,
      postAPILoop request url requestBody expectedStatusCode expectedSchema
          i fuel =
        retryLoop (fun n => request.post url requestBody n) url
          expectedStatusCode expectedSchema i fuel := by
  intro fuel
  induction fuel with
  | zero => intro i; rfl
  | succ fuel ih =>
    intro i
    simp only [postAPILoop, retryLoop, ih]

theorem putAPILoop_eq_retryLoop {B J : Type} (request : APIRequestContext B J)
    (url : String) (requestBody : B) (expectedStatusCode : Int)
    (expectedSchema : J → Except String J) :
    ∀ fuel i,
      putAPILoop request url requestBody expectedStatusCode expectedSchema
          i fuel =
        retryLoop (fun n => request.put url requestBody n) url
          expectedStatusCode expectedSchema i fuel := by
  intro fuel
  induction fuel with
  | zero => intro i; rfl
  | succ fuel ih =>
    intro i
    simp only [putAPILoop, retryLoop, ih]

theorem deleteAPILoop_eq_retryLoop {B J : Type} (request : APIRequestContext B J)
    (url : String) (expectedStatusCode : Int)
    (expectedSchema : J → Except String J) :
    ∀ fuel i,
      deleteAPILoop request url expectedStatusCode expectedSchema i fuel =
        retryLoop (fun n => request.delete url n) url
          expectedStatusCode expectedSchema i fuel := by
  intro fuel
  induction fuel with
  | zero => intro i; rfl
  | succ fuel ih =>
    intro i
    simp only [deleteAPILoop, retryLoop, ih]

theorem requestCount_append (a b : List CallEvent) :
    requestCount (a ++ b) = requestCount a + requestCount b := by
  simp [requestCount, List.countP_append]

theorem diagnosticLines_append (a b : List CallEvent) :
    diagnosticLines (a ++ b) = diagnosticLines a ++ diagnosticLines b := by
  simp [diagnosticLines, List.filterMap_append]

theorem requestCount_mismatchTrace (url : String) :
    ∀ m i, requestCount (mismatchTrace url i m) = m := by
  intro m
  induction m with
  | zero => intro i; rfl
  | succ m ih =>
    intro i
    simp only [mismatchTrace, requestCount, List.countP_cons] at *
    simp [ih (i + 1)]

theorem diagnosticLines_mismatchTrace (url : String) :
    ∀ m i, diagnosticLines (mismatchTrace url i m) =
      (List.range m).map fun j => diagnosticLine (i + j + 1) url := by
  intro m
  induction m with
  | zero => intro i; rfl
  | succ m ih =>
    intro i
    have step : diagnosticLines (mismatchTrace url i (m + 1)) =
        diagnosticLine (i + 1) url ::
          diagnosticLines (mismatchTrace url (i + 1) m) := by
      simp [mismatchTrace, diagnosticLines]
    rw [step, ih (i + 1), List.range_succ_eq_map, List.map_cons, List.map_map]
    refine congrArg₂ List.cons (by norm_num) ?_
    refine List.map_congr_left fun j _ => ?_
    simp only [Function.comp_apply]
    congr 1
    omega

theorem retryLoop_success {J : Type} (exec : Nat → Except String (APIResponse J))
    (url : String) (expectedStatusCode : Int)
    (expectedSchema : J → Except String J) :
    ∀ (m i fuel : Nat), m < fuel →
      (∀ j, j < m → ∃ r, exec (i + j) = .ok r ∧ r.status ≠ expectedStatusCode) →
      ∀ (r : APIResponse J) (jv jv2 : J),
        exec (i + m) = .ok r → r.status = expectedStatusCode →
        r.json = .ok jv → expectedSchema jv = .ok jv2 →
        retryLoop exec url expectedStatusCode expectedSchema i fuel =
          (.ok r, mismatchTrace url i m ++
            [.request (i + m), .jsonParse (i + m), .schemaValidate (i + m)]) := by
  intro m
  induction m with
  | zero =>
    intro i fuel hfuel _ r jv jv2 hexec hstatus hjson hsch
    match fuel, hfuel with
    | fuel + 1, _ =>
      rw [Nat.add_zero] at hexec
      simp [retryLoop, hexec, hstatus, hjson, hsch, mismatchTrace]
  | succ m ih =>
    intro i fuel hfuel hmm r jv jv2 hexec hstatus hjson hsch
    match fuel, hfuel with
    | fuel + 1, hfuel =>
      obtain ⟨r0, hr0, hr0s⟩ := hmm 0 (Nat.succ_pos m)
      rw [Nat.add_zero] at hr0
      have hshift : ∀ j, j < m →
          ∃ rr, exec (i + 1 + j) = .ok rr ∧ rr.status ≠ expectedStatusCode := by
        intro j hj
        obtain ⟨rr, h1, h2⟩ := hmm (j + 1) (Nat.succ_lt_succ hj)
        exact ⟨rr, by rw [show i + 1 + j = i + (j + 1) by omega]; exact h1, h2⟩
      have hexec' : exec (i + 1 + m) = .ok r := by
        rw [show i + 1 + m = i + (m + 1) by omega]; exact hexec
      have ihx := ih (i + 1) fuel (Nat.lt_of_succ_lt_succ hfuel) hshift
        r jv jv2 hexec' hstatus hjson hsch
      have hidx : i + (m + 1) = i + 1 + m := by omega
      rw [hidx]
      simp [retryLoop, hr0, hr0s, ihx, mismatchTrace]

theorem retryLoop_exhaust {J : Type} (exec : Nat → Except String (APIResponse J))
    (url : String) (expectedStatusCode : Int)
    (expectedSchema : J → Except String J) :
    ∀ (fuel i : Nat),
      (∀ j, j < fuel → ∃ r, exec (i + j) = .ok r ∧
        r.status ≠ expectedStatusCode) →
      retryLoop exec url expectedStatusCode expectedSchema i fuel =
        (.error .maxRetries, mismatchTrace url i fuel) := by
  intro fuel
  induction fuel with
  | zero => intro i _; rfl
  | succ fuel ih =>
    intro i hmm
    obtain ⟨r0, hr0, hr0s⟩ := hmm 0 (Nat.succ_pos fuel)
    rw [Nat.add_zero] at hr0
    have hshift : ∀ j, j < fuel →
        ∃ rr, exec (i + 1 + j) = .ok rr ∧ rr.status ≠ expectedStatusCode := by
      intro j hj
      obtain ⟨rr, h1, h2⟩ := hmm (j + 1) (Nat.succ_lt_succ hj)
      exact ⟨rr, by rw [show i + 1 + j = i + (j + 1) by omega]; exact h1, h2⟩
    simp [retryLoop, hr0, hr0s, ih (i + 1) hshift, mismatchTrace]

theorem retryLoop_schemaFail {J : Type} (exec : Nat → Except String (APIResponse J))
    (url : String) (expectedStatusCode : Int)
    (expectedSchema : J → Except String J) :
    ∀ (m i fuel : Nat), m < fuel →
      (∀ j, j < m → ∃ r, exec (i + j) = .ok r ∧ r.status ≠ expectedStatusCode) →
      ∀ (r : APIResponse J) (jv : J) (e : String),
        exec (i + m) = .ok r → r.status = expectedStatusCode →
        r.json = .ok jv → expectedSchema jv = .error e →
        retryLoop exec url expectedStatusCode expectedSchema i fuel =
          (.error (.schemaError e), mismatchTrace url i m ++
            [.request (i + m), .jsonParse (i + m), .schemaValidate (i + m)]) := by
  intro m
  induction m with
  | zero =>
    intro i fuel hfuel _ r jv e hexec hstatus hjson hsch
    match fuel, hfuel with
    | fuel + 1, _ =>
      rw [Nat.add_zero] at hexec
      simp [retryLoop, hexec, hstatus, hjson, hsch, mismatchTrace]
  | succ m ih =>
    intro i fuel hfuel hmm r jv e hexec hstatus hjson hsch
    match fuel, hfuel with
    | fuel + 1, hfuel =>
      obtain ⟨r0, hr0, hr0s⟩ := hmm 0 (Nat.succ_pos m)
      rw [Nat.add_zero] at hr0
      have hshift : ∀ j, j < m →
          ∃ rr, exec (i + 1 + j) = .ok rr ∧ rr.status ≠ expectedStatusCode := by
        intro j hj
        obtain ⟨rr, h1, h2⟩ := hmm (j + 1) (Nat.succ_lt_succ hj)
        exact ⟨rr, by rw [show i + 1 + j = i + (j + 1) by omega]; exact h1, h2⟩
      have hexec' : exec (i + 1 + m) = .ok r := by
        rw [show i + 1 + m = i + (m + 1) by omega]; exact hexec
      have ihx := ih (i + 1) fuel (Nat.lt_of_succ_lt_succ hfuel) hshift
        r jv e hexec' hstatus hjson hsch
      have hidx : i + (m + 1) = i + 1 + m := by omega
      rw [hidx]
      simp [retryLoop, hr0, hr0s, ihx, mismatchTrace]

theorem retryLoop_execError {J : Type} (exec : Nat → Except String (APIResponse J))
    (url : String) (expectedStatusCode : Int)
    (expectedSchema : J → Except String J) :
    ∀ (m i fuel : Nat), m < fuel →
      (∀ j, j < m → ∃ r, exec (i + j) = .ok r ∧ r.status ≠ expectedStatusCode) →
      ∀ (e : String), exec (i + m) = .error e →
        retryLoop exec url expectedStatusCode expectedSchema i fuel =
          (.error (.execError e), mismatchTrace url i m ++ [.request (i + m)]) := by
  intro m
  induction m with
  | zero =>
    intro i fuel hfuel _ e hexec
    match fuel, hfuel with
    | fuel + 1, _ =>
      rw [Nat.add_zero] at hexec
      simp [retryLoop, hexec, mismatchTrace]
  | succ m ih =>
    intro i fuel hfuel hmm e hexec
    match fuel, hfuel with
    | fuel + 1, hfuel =>
      obtain ⟨r0, hr0, hr0s⟩ := hmm 0 (Nat.succ_pos m)
      rw [Nat.add_zero] at hr0
      have hshift : ∀ j, j < m →
          ∃ rr, exec (i + 1 + j) = .ok rr ∧ rr.status ≠ expectedStatusCode := by
        intro j hj
        obtain ⟨rr, h1, h2⟩ := hmm (j + 1) (Nat.succ_lt_succ hj)
        exact ⟨rr, by rw [show i + 1 + j = i + (j + 1) by omega]; exact h1, h2⟩
      have hexec' : exec (i + 1 + m) = .error e := by
        rw [show i + 1 + m = i + (m + 1) by omega]; exact hexec
      have ihx := ih (i + 1) fuel (Nat.lt_of_succ_lt_succ hfuel) hshift e hexec'
      have hidx : i + (m + 1) = i + 1 + m := by omega
      rw [hidx]
      simp [retryLoop, hr0, hr0s, ihx, mismatchTrace]

theorem retryLoop_parse_only_on_match {J : Type}
    (exec : Nat → Except String (APIResponse J)) (url : String)
    (expectedStatusCode : Int) (expectedSchema : J → Except String J) :
    ∀ (fuel i j : Nat),
      (CallEvent.jsonParse j ∈
          (retryLoop exec url expectedStatusCode expectedSchema i fuel).2 ∨
        CallEvent.schemaValidate j ∈
          (retryLoop exec url expectedStatusCode expectedSchema i fuel).2) →
      ∃ r, exec j = .ok r ∧ r.status = expectedStatusCode := by
  intro fuel
  induction fuel with
  | zero => intro i j h; simp [retryLoop] at h
  | succ fuel ih =>
    intro i j h
    rcases hE : exec i with e | response
    · simp [retryLoop, hE] at h
    · by_cases hs : response.status = expectedStatusCode
      · rcases hJ : response.json with e | jv
        · simp [retryLoop, hE, hs, hJ] at h
          subst h
          exact ⟨response, hE, hs⟩
        · rcases hV : expectedSchema jv with e | jv2
          · simp [retryLoop, hE, hs, hJ, hV] at h
            subst h
            exact ⟨response, hE, hs⟩
          · simp [retryLoop, hE, hs, hJ, hV] at h
            subst h
            exact ⟨response, hE, hs⟩
      · simp only [retryLoop, hE] at h
        rw [if_neg hs] at h
        simp only [List.mem_cons, reduceCtorEq, false_or] at h
        exact ih (i + 1) j h

theorem getAPI_eq_retryLoop {B J : Type} (request : APIRequestContext B J)
    (url : String) (expectedStatusCode : Int)
    (expectedSchema : J → Except String J)
    (parameters headers : List (String × String)) (retryCount : Int) :
    getAPI request url expectedStatusCode expectedSchema parameters headers
        retryCount =
      retryLoop (fun n => request.get url parameters headers n) url
        expectedStatusCode expectedSchema 0 retryCount.toNat := by
  unfold getAPI
  rw [getAPILoop_eq_retryLoop]

theorem postAPI_eq_retryLoop {B J : Type} (request : APIRequestContext B J)
    (url : String) (requestBody : B) (expectedStatusCode : Int)
    (expectedSchema : J → Except String J) (retryCount : Int) :
    postAPI request url requestBody expectedStatusCode expectedSchema
        retryCount =
      retryLoop (fun n => request.post url requestBody n) url
        expectedStatusCode expectedSchema 0 retryCount.toNat := by
  unfold postAPI
  rw [postAPILoop_eq_retryLoop]

theorem putAPI_eq_retryLoop {B J : Type} (request : APIRequestContext B J)
    (url : String) (requestBody : B) (expectedStatusCode : Int)
    (expectedSchema : J → Except String J) (retryCount : Int) :
    putAPI request url requestBody expectedStatusCode expectedSchema
        retryCount =
      retryLoop (fun n => request.put url requestBody n) url
        expectedStatusCode expectedSchema 0 retryCount.toNat := by
  unfold putAPI
  rw [putAPILoop_eq_retryLoop]

theorem deleteAPI_eq_retryLoop {B J : Type} (request : APIRequestContext B J)
    (url : String) (expectedStatusCode : Int)
    (expectedSchema : J → Except String J) (retryCount : Int) :
    deleteAPI request url expectedStatusCode expectedSchema retryCount =
      retryLoop (fun n => request.delete url n) url
        expectedStatusCode expectedSchema 0 retryCount.toNat := by
  unfold deleteAPI
  rw [deleteAPILoop_eq_retryLoop]

theorem retryLoop_success_zero {J : Type}
    (exec : Nat → Except String (APIResponse J)) (url : String)
    (expectedStatusCode : Int) (expectedSchema : J → Except String J)
    (N k : Nat) (hk : 1 ≤ k) (hkN : k ≤ N)
    (hmm : mismatchBefore exec expectedStatusCode (k - 1))
    (r : APIResponse J) (jv jv2 : J)
    (hexec : exec (k - 1) = .ok r) (hstatus : r.status = expectedStatusCode)
    (hjson : r.json = .ok jv) (hsch : expectedSchema jv = .ok jv2) :
    (retryLoop exec url expectedStatusCode expectedSchema 0 N).1 = .ok r ∧
    requestCount (retryLoop exec url expectedStatusCode expectedSchema 0 N).2 = k ∧
    diagnosticLines (retryLoop exec url expectedStatusCode expectedSchema 0 N).2 =
      (List.range (k - 1)).map fun j => diagnosticLine (j + 1) url := by
  have h := retryLoop_success exec url expectedStatusCode expectedSchema
    (k - 1) 0 N (by omega) (fun j hj => by simpa using hmm j hj) r jv jv2
    (by simpa using hexec) hstatus hjson hsch
  refine ⟨by rw [h], ?_, ?_⟩
  · simp only [h]
    rw [requestCount_append, requestCount_mismatchTrace]
    simp [requestCount]
    omega
  · simp only [h]
    rw [diagnosticLines_append, diagnosticLines_mismatchTrace]
    simp [diagnosticLines]

theorem retryLoop_exhaust_zero {J : Type}
    (exec : Nat → Except String (APIResponse J)) (url : String)
    (expectedStatusCode : Int) (expectedSchema : J → Except String J)
    (N : Nat) (hmm : mismatchBefore exec expectedStatusCode N) :
    (retryLoop exec url expectedStatusCode expectedSchema 0 N).1 =
      .error .maxRetries ∧
    requestCount (retryLoop exec url expectedStatusCode expectedSchema 0 N).2 = N ∧
    diagnosticLines (retryLoop exec url expectedStatusCode expectedSchema 0 N).2 =
      (List.range N).map fun j => diagnosticLine (j + 1) url := by
  have h := retryLoop_exhaust exec url expectedStatusCode expectedSchema N 0
    (fun j hj => by simpa using hmm j hj)
  refine ⟨by rw [h], ?_, ?_⟩
  · rw [h]
    simp [requestCount_mismatchTrace]
  · rw [h]
    simp [diagnosticLines_mismatchTrace]

theorem retryLoop_schemaFail_zero {J : Type}
    (exec : Nat → Except String (APIResponse J)) (url : String)
    (expectedStatusCode : Int) (expectedSchema : J → Except String J)
    (N k : Nat) (hk : 1 ≤ k) (hkN : k ≤ N)
    (hmm : mismatchBefore exec expectedStatusCode (k - 1))
    (r : APIResponse J) (jv : J) (e : String)
    (hexec : exec (k - 1) = .ok r) (hstatus : r.status = expectedStatusCode)
    (hjson : r.json = .ok jv) (hsch : expectedSchema jv = .error e) :
    (retryLoop exec url expectedStatusCode expectedSchema 0 N).1 =
      .error (.schemaError e) ∧
    requestCount (retryLoop exec url expectedStatusCode expectedSchema 0 N).2 = k ∧
    diagnosticLines (retryLoop exec url expectedStatusCode expectedSchema 0 N).2 =
      (List.range (k - 1)).map fun j => diagnosticLine (j + 1) url := by
  have h := retryLoop_schemaFail exec url expectedStatusCode expectedSchema
    (k - 1) 0 N (by omega) (fun j hj => by simpa using hmm j hj) r jv e
    (by simpa using hexec) hstatus hjson hsch
  refine ⟨by rw [h], ?_, ?_⟩
  · simp only [h]
    rw [requestCount_append, requestCount_mismatchTrace]
    simp [requestCount]
    omega
  · simp only [h]
    rw [diagnosticLines_append, diagnosticLines_mismatchTrace]
    simp [diagnosticLines]

theorem retryLoop_execError_zero {J : Type}
    (exec : Nat → Except String (APIResponse J)) (url : String)
    (expectedStatusCode : Int) (expectedSchema : J → Except String J)
    (N m : Nat) (hmN : m < N)
    (hmm : mismatchBefore exec expectedStatusCode m) (e : String)
    (hexec : exec m = .error e) :
    (retryLoop exec url expectedStatusCode expectedSchema 0 N).1 =
      .error (.execError e) ∧
    requestCount (retryLoop exec url expectedStatusCode expectedSchema 0 N).2 =
      m + 1 ∧
    diagnosticLines (retryLoop exec url expectedStatusCode expectedSchema 0 N).2 =
      (List.range m).map fun j => diagnosticLine (j + 1) url := by
  have h := retryLoop_execError exec url expectedStatusCode expectedSchema
    m 0 N hmN (fun j hj => by simpa using hmm j hj) e (by simpa using hexec)
  refine ⟨by rw [h], ?_, ?_⟩
  · simp only [h]
    rw [requestCount_append, requestCount_mismatchTrace]
    simp [requestCount]
  · simp only [h]
    rw [diagnosticLines_append, diagnosticLines_mismatchTrace]
    simp [diagnosticLines]

/-- Concrete response fixture used by the closed witness theorems. -/
def demoResponse (status : Int) : APIResponse Int :=
  { status := status, headers := [], json := .ok 7 }

/-- Executor behavior: status 500 on the first attempt, 200 afterwards. -/
def demoFlaky : Nat → Except String (APIResponse Int) :=
  fun i => if i = 0 then .ok (demoResponse 500) else .ok (demoResponse 200)

/-- Executor behavior: status 404 on every attempt. -/
def demoAlways404 : Nat → Except String (APIResponse Int) :=
  fun _ => .ok (demoResponse 404)

/-- Executor behavior: status 500 on the first attempt, an exception on
every later attempt. -/
def demoBoom : Nat → Except String (APIResponse Int) :=
  fun i => if i = 0 then .ok (demoResponse 500) else .error "ECONNRESET"

/-- Request context whose four methods all behave like the given executor. -/
def demoContext (f : Nat → Except String (APIResponse Int)) :
    APIRequestContext Unit Int :=
  { get := fun _ _ _ i => f i
    post := fun _ _ i => f i
    put := fun _ _ i => f i
    delete := fun _ i => f i }

/-- Schema that accepts every body. -/
def demoOkSchema : Int → Except String Int := fun j => .ok j

/-- Schema that rejects every body with a ZodError. -/
def demoBadSchema : Int → Except String Int := fun _ => .error "ZodError"

/-- C1: for every attempt bound N ≥ 1 and every expected status code, if the
request executor returns the expected status code for the first time on
attempt k ≤ N (and the matching attempt's body parses and validates), then
`getAPI` — and each sibling helper — succeeds, returns exactly that
attempt's response object unchanged to the caller, and issues exactly k
requests: no further attempts are made after the match. -/
theorem helpers_success_on_first_match {B J : Type}
    (request : APIRequestContext B J) (url : String)
    (expectedStatusCode : Int) (expectedSchema : J → Except String J)
    (parameters headers : List (String × String)) (requestBody : B)
    (N k : Nat) (hk : 1 ≤ k) (hkN : k ≤ N) (r : APIResponse J) (jv jv2 : J)
    (hstatus : r.status = expectedStatusCode) (hjson : r.json = .ok jv)
    (hsch : expectedSchema jv = .ok jv2) :
    (mismatchBefore (fun n => request.get url parameters headers n)
        expectedStatusCode (k - 1) →
      request.get url parameters headers (k - 1) = .ok r →
      (getAPI request url expectedStatusCode expectedSchema parameters
          headers (N : Int)).1 = .ok r ∧
      requestCount (getAPI request url expectedStatusCode expectedSchema
          parameters headers (N : Int)).2 = k) ∧
    (mismatchBefore (fun n => request.post url requestBody n)
        expectedStatusCode (k - 1) →
      request.post url requestBody (k - 1) = .ok r →
      (postAPI request url requestBody expectedStatusCode expectedSchema
          (N : Int)).1 = .ok r ∧
      requestCount (postAPI request url requestBody expectedStatusCode
          expectedSchema (N : Int)).2 = k) ∧
    (mismatchBefore (fun n => request.put url requestBody n)
        expectedStatusCode (k - 1) →
      request.put url requestBody (k - 1) = .ok r →
      (putAPI request url requestBody expectedStatusCode expectedSchema
          (N : Int)).1 = .ok r ∧
      requestCount (putAPI request url requestBody expectedStatusCode
          expectedSchema (N : Int)).2 = k) ∧
    (mismatchBefore (fun n => request.delete url n)
        expectedStatusCode (k - 1) →
      request.delete url (k - 1) = .ok r →
      (deleteAPI request url expectedStatusCode expectedSchema
          (N : Int)).1 = .ok r ∧
      requestCount (deleteAPI request url expectedStatusCode expectedSchema
          (N : Int)).2 = k) := by
  refine ⟨?_, ?_, ?_, ?_⟩ <;> intro hmm hexec
  · rw [getAPI_eq_retryLoop, Int.toNat_natCast]
    have h := retryLoop_success_zero
      (fun n => request.get url parameters headers n) url expectedStatusCode
      expectedSchema N k hk hkN hmm r jv jv2 hexec hstatus hjson hsch
    exact ⟨h.1, h.2.1⟩
  · rw [postAPI_eq_retryLoop, Int.toNat_natCast]
    have h := retryLoop_success_zero
      (fun n => request.post url requestBody n) url expectedStatusCode
      expectedSchema N k hk hkN hmm r jv jv2 hexec hstatus hjson hsch
    exact ⟨h.1, h.2.1⟩
  · rw [putAPI_eq_retryLoop, Int.toNat_natCast]
    have h := retryLoop_success_zero
      (fun n => request.put url requestBody n) url expectedStatusCode
      expectedSchema N k hk hkN hmm r jv jv2 hexec hstatus hjson hsch
    exact ⟨h.1, h.2.1⟩
  · rw [deleteAPI_eq_retryLoop, Int.toNat_natCast]
    have h := retryLoop_success_zero
      (fun n => request.delete url n) url expectedStatusCode
      expectedSchema N k hk hkN hmm r jv jv2 hexec hstatus hjson hsch
    exact ⟨h.1, h.2.1⟩

/-- Witness for C1 at a concrete input: executor returns status 500 on
attempt 1 and status 200 on attempt 2, bound N = 3 — the call returns
attempt 2's response after exactly 2 requests. -/
theorem helpers_success_on_first_match_witness :
    (getAPI (demoContext demoFlaky) "url" 200 demoOkSchema [] []
        ((3 : Nat) : Int)).1 = .ok (demoResponse 200) ∧
    requestCount (getAPI (demoContext demoFlaky) "url" 200 demoOkSchema [] []
        ((3 : Nat) : Int)).2 = 2 := by
  have h := helpers_success_on_first_match (demoContext demoFlaky) "url" 200
    demoOkSchema [] [] () 3 2 (by norm_num) (by norm_num) (demoResponse 200)
    7 7 (by rfl) (by rfl) (by rfl)
  exact h.1
    (fun j hj => by
      interval_cases j
      exact ⟨demoResponse 500, rfl, by decide⟩)
    rfl

/-- C2: for every attempt bound N ≥ 1, if the request executor never returns
the expected status code within N attempts, `getAPI` — and each sibling
helper — throws the terminal exhaustion error (message
"Max retries reached. API call failed.") after the loop exits, and exactly
N requests were issued. -/
theorem helpers_exhaustion {B J : Type}
    (request : APIRequestContext B J) (url : String)
    (expectedStatusCode : Int) (expectedSchema : J → Except String J)
    (parameters headers : List (String × String)) (requestBody : B)
    (N : Nat) (_hN : 1 ≤ N) :
    CallError.message .maxRetries = "Max retries reached. API call failed." ∧
    (mismatchBefore (fun n => request.get url parameters headers n)
        expectedStatusCode N →
      (getAPI request url expectedStatusCode expectedSchema parameters
          headers (N : Int)).1 = .error .maxRetries ∧
      requestCount (getAPI request url expectedStatusCode expectedSchema
          parameters headers (N : Int)).2 = N) ∧
    (mismatchBefore (fun n => request.post url requestBody n)
        expectedStatusCode N →
      (postAPI request url requestBody expectedStatusCode expectedSchema
          (N : Int)).1 = .error .maxRetries ∧
      requestCount (postAPI request url requestBody expectedStatusCode
          expectedSchema (N : Int)).2 = N) ∧
    (mismatchBefore (fun n => request.put url requestBody n)
        expectedStatusCode N →
      (putAPI request url requestBody expectedStatusCode expectedSchema
          (N : Int)).1 = .error .maxRetries ∧
      requestCount (putAPI request url requestBody expectedStatusCode
          expectedSchema (N : Int)).2 = N) ∧
    (mismatchBefore (fun n => request.delete url n) expectedStatusCode N →
      (deleteAPI request url expectedStatusCode expectedSchema
          (N : Int)).1 = .error .maxRetries ∧
      requestCount (deleteAPI request url expectedStatusCode expectedSchema
          (N : Int)).2 = N) := by
  refine ⟨rfl, ?_, ?_, ?_, ?_⟩ <;> intro hmm
  · rw [getAPI_eq_retryLoop, Int.toNat_natCast]
    have h := retryLoop_exhaust_zero
      (fun n => request.get url parameters headers n) url expectedStatusCode
      expectedSchema N hmm
    exact ⟨h.1, h.2.1⟩
  · rw [postAPI_eq_retryLoop, Int.toNat_natCast]
    have h := retryLoop_exhaust_zero
      (fun n => request.post url requestBody n) url expectedStatusCode
      expectedSchema N hmm
    exact ⟨h.1, h.2.1⟩
  · rw [putAPI_eq_retryLoop, Int.toNat_natCast]
    have h := retryLoop_exhaust_zero
      (fun n => request.put url requestBody n) url expectedStatusCode
      expectedSchema N hmm
    exact ⟨h.1, h.2.1⟩
  · rw [deleteAPI_eq_retryLoop, Int.toNat_natCast]
    have h := retryLoop_exhaust_zero
      (fun n => request.delete url n) url expectedStatusCode
      expectedSchema N hmm
    exact ⟨h.1, h.2.1⟩

/-- Witness for C2 at a concrete input: executor returns status 404 on every
attempt, bound N = 5 — the call throws the exhaustion error after exactly 5
requests. -/
theorem helpers_exhaustion_witness :
    (getAPI (demoContext demoAlways404) "url" 200 demoOkSchema [] []
        ((5 : Nat) : Int)).1 = .error .maxRetries ∧
    requestCount (getAPI (demoContext demoAlways404) "url" 200 demoOkSchema
        [] [] ((5 : Nat) : Int)).2 = 5 := by
  have h := helpers_exhaustion (demoContext demoAlways404) "url" 200
    demoOkSchema [] [] () 5 (by norm_num)
  exact h.2.1 (fun j hj => ⟨demoResponse 404, rfl, by decide⟩)

/-- C3: for every attempt bound N ≥ 1, if on some attempt k ≤ N the
observed status code equals the expected one but schema validation of the
parsed body fails, `getAPI` — and each sibling helper — fails immediately
with the validation error (not the exhaustion error), no further attempt is
made, and exactly k requests were issued. -/
theorem helpers_schema_failure_is_fatal {B J : Type}
    (request : APIRequestContext B J) (url : String)
    (expectedStatusCode : Int) (expectedSchema : J → Except String J)
    (parameters headers : List (String × String)) (requestBody : B)
    (N k : Nat) (hk : 1 ≤ k) (hkN : k ≤ N) (r : APIResponse J) (jv : J)
    (e : String) (hstatus : r.status = expectedStatusCode)
    (hjson : r.json = .ok jv) (hsch : expectedSchema jv = .error e) :
    (mismatchBefore (fun n => request.get url parameters headers n)
        expectedStatusCode (k - 1) →
      request.get url parameters headers (k - 1) = .ok r →
      (getAPI request url expectedStatusCode expectedSchema parameters
          headers (N : Int)).1 = .error (.schemaError e) ∧
      requestCount (getAPI request url expectedStatusCode expectedSchema
          parameters headers (N : Int)).2 = k) ∧
    (mismatchBefore (fun n => request.post url requestBody n)
        expectedStatusCode (k - 1) →
      request.post url requestBody (k - 1) = .ok r →
      (postAPI request url requestBody expectedStatusCode expectedSchema
          (N : Int)).1 = .error (.schemaError e) ∧
      requestCount (postAPI request url requestBody expectedStatusCode
          expectedSchema (N : Int)).2 = k) ∧
    (mismatchBefore (fun n => request.put url requestBody n)
        expectedStatusCode (k - 1) →
      request.put url requestBody (k - 1) = .ok r →
      (putAPI request url requestBody expectedStatusCode expectedSchema
          (N : Int)).1 = .error (.schemaError e) ∧
      requestCount (putAPI request url requestBody expectedStatusCode
          expectedSchema (N : Int)).2 = k) ∧
    (mismatchBefore (fun n => request.delete url n)
        expectedStatusCode (k - 1) →
      request.delete url (k - 1) = .ok r →
      (deleteAPI request url expectedStatusCode expectedSchema
          (N : Int)).1 = .error (.schemaError e) ∧
      requestCount (deleteAPI request url expectedStatusCode expectedSchema
          (N : Int)).2 = k) := by
  refine ⟨?_, ?_, ?_, ?_⟩ <;> intro hmm hexec
  · rw [getAPI_eq_retryLoop, Int.toNat_natCast]
    have h := retryLoop_schemaFail_zero
      (fun n => request.get url parameters headers n) url expectedStatusCode
      expectedSchema N k hk hkN hmm r jv e hexec hstatus hjson hsch
    exact ⟨h.1, h.2.1⟩
  · rw [postAPI_eq_retryLoop, Int.toNat_natCast]
    have h := retryLoop_schemaFail_zero
      (fun n => request.post url requestBody n) url expectedStatusCode
      expectedSchema N k hk hkN hmm r jv e hexec hstatus hjson hsch
    exact ⟨h.1, h.2.1⟩
  · rw [putAPI_eq_retryLoop, Int.toNat_natCast]
    have h := retryLoop_schemaFail_zero
      (fun n => request.put url requestBody n) url expectedStatusCode
      expectedSchema N k hk hkN hmm r jv e hexec hstatus hjson hsch
    exact ⟨h.1, h.2.1⟩
  · rw [deleteAPI_eq_retryLoop, Int.toNat_natCast]
    have h := retryLoop_schemaFail_zero
      (fun n => request.delete url n) url expectedStatusCode
      expectedSchema N k hk hkN hmm r jv e hexec hstatus hjson hsch
    exact ⟨h.1, h.2.1⟩

/-- Witness for C3 at a concrete input: executor returns status 500 on
attempt 1 and status 200 on attempt 2, bound N = 5, schema rejects the
body — the call throws the validation error after exactly 2 requests. -/
theorem helpers_schema_failure_is_fatal_witness :
    (getAPI (demoContext demoFlaky) "url" 200 demoBadSchema [] []
        ((5 : Nat) : Int)).1 = .error (.schemaError "ZodError") ∧
    requestCount (getAPI (demoContext demoFlaky) "url" 200 demoBadSchema
        [] [] ((5 : Nat) : Int)).2 = 2 := by
  have h := helpers_schema_failure_is_fatal (demoContext demoFlaky) "url" 200
    demoBadSchema [] [] () 5 2 (by norm_num) (by norm_num) (demoResponse 200)
    7 "ZodError" (by rfl) (by rfl) (by rfl)
  exact h.1
    (fun j hj => by
      interval_cases j
      exact ⟨demoResponse 500, rfl, by decide⟩)
    rfl

/-- C4: on every execution of `getAPI` — and each sibling helper — the
response body is parsed and the schema validator invoked only for an
attempt whose observed status code equals the expected one; no parse or
validation event exists for a mismatched attempt. -/
theorem helpers_parse_only_on_match {B J : Type}
    (request : APIRequestContext B J) (url : String)
    (expectedStatusCode : Int) (expectedSchema : J → Except String J)
    (parameters headers : List (String × String)) (requestBody : B)
    (retryCount : Int) :
    (∀ j, (CallEvent.jsonParse j ∈
          (getAPI request url expectedStatusCode expectedSchema parameters
            headers retryCount).2 ∨
        CallEvent.schemaValidate j ∈
          (getAPI request url expectedStatusCode expectedSchema parameters
            headers retryCount).2) →
      ∃ r, request.get url parameters headers j = .ok r ∧
        r.status = expectedStatusCode) ∧
    (∀ j, (CallEvent.jsonParse j ∈
          (postAPI request url requestBody expectedStatusCode expectedSchema
            retryCount).2 ∨
        CallEvent.schemaValidate j ∈
          (postAPI request url requestBody expectedStatusCode expectedSchema
            retryCount).2) →
      ∃ r, request.post url requestBody j = .ok r ∧
        r.status = expectedStatusCode) ∧
    (∀ j, (CallEvent.jsonParse j ∈
          (putAPI request url requestBody expectedStatusCode expectedSchema
            retryCount).2 ∨
        CallEvent.schemaValidate j ∈
          (putAPI request url requestBody expectedStatusCode expectedSchema
            retryCount).2) →
      ∃ r, request.put url requestBody j = .ok r ∧
        r.status = expectedStatusCode) ∧
    (∀ j, (CallEvent.jsonParse j ∈
          (deleteAPI request url expectedStatusCode expectedSchema
            retryCount).2 ∨
        CallEvent.schemaValidate j ∈
          (deleteAPI request url expectedStatusCode expectedSchema
            retryCount).2) →
      ∃ r, request.delete url j = .ok r ∧
        r.status = expectedStatusCode) := by
  refine ⟨?_, ?_, ?_, ?_⟩ <;> intro j h
  · rw [getAPI_eq_retryLoop] at h
    exact retryLoop_parse_only_on_match _ url expectedStatusCode
      expectedSchema retryCount.toNat 0 j h
  · rw [postAPI_eq_retryLoop] at h
    exact retryLoop_parse_only_on_match _ url expectedStatusCode
      expectedSchema retryCount.toNat 0 j h
  · rw [putAPI_eq_retryLoop] at h
    exact retryLoop_parse_only_on_match _ url expectedStatusCode
      expectedSchema retryCount.toNat 0 j h
  · rw [deleteAPI_eq_retryLoop] at h
    exact retryLoop_parse_only_on_match _ url expectedStatusCode
      expectedSchema retryCount.toNat 0 j h

/-- Witness for C4 at a concrete input: with the flaky executor (500 then
200) a parse event for attempt index 1 is in the trace, and indeed attempt
index 1 returned the expected status 200. -/
theorem helpers_parse_only_on_match_witness :
    ∃ r, (demoContext demoFlaky).get "url" [] [] 1 = .ok r ∧
      r.status = 200 := by
  have h := (helpers_parse_only_on_match (demoContext demoFlaky) "url" 200
    demoOkSchema [] [] () 3).1 1 (Or.inl (by decide))
  exact h

theorem retryLoop_diagnostics_per_mismatch {J : Type}
    (exec : Nat → Except String (APIResponse J)) (url : String)
    (expectedStatusCode : Int) (expectedSchema : J → Except String J) :
    ∀ fuel i,
      diagnosticLines (retryLoop exec url expectedStatusCode expectedSchema
          i fuel).2 =
        (mismatchedRequests exec expectedStatusCode
            (retryLoop exec url expectedStatusCode expectedSchema
              i fuel).2).map
          fun j => diagnosticLine (j + 1) url := by
  intro fuel
  induction fuel with
  | zero => intro i; rfl
  | succ fuel ih =>
    intro i
    rcases hE : exec i with e | response
    · simp [retryLoop, hE, diagnosticLines, mismatchedRequests]
    · by_cases hs : response.status = expectedStatusCode
      · rcases hJ : response.json with e | jv
        · simp [retryLoop, hE, hs, hJ, diagnosticLines, mismatchedRequests]
        · rcases hV : expectedSchema jv with e | jv2
          · simp [retryLoop, hE, hs, hJ, hV, diagnosticLines,
              mismatchedRequests]
          · simp [retryLoop, hE, hs, hJ, hV, diagnosticLines,
              mismatchedRequests]
      · have htail := ih (i + 1)
        simp only [retryLoop, hE]
        rw [if_neg hs]
        simp [diagnosticLines, mismatchedRequests, hE, hs] at htail ⊢
        exact htail

/-- C5: for every execution of `getAPI` — and each sibling helper — with
any executor behavior and any retry count, the diagnostic lines of the
trace are exactly one line (naming the attempt number and the target URL)
per issued request whose observed status code did not match the expected
one, in order; consequently zero lines are emitted for an attempt whose
status matched — the attempt that succeeds, or the attempt whose matching
status leads to a schema-validation failure. -/
theorem helpers_diagnostics_exactly_per_mismatched_attempt {B J : Type}
    (request : APIRequestContext B J) (url : String)
    (expectedStatusCode : Int) (expectedSchema : J → Except String J)
    (parameters headers : List (String × String)) (requestBody : B)
    (retryCount : Int) :
    diagnosticLines (getAPI request url expectedStatusCode expectedSchema
        parameters headers retryCount).2 =
      (mismatchedRequests (fun n => request.get url parameters headers n)
          expectedStatusCode
          (getAPI request url expectedStatusCode expectedSchema parameters
            headers retryCount).2).map
        (fun j => diagnosticLine (j + 1) url) ∧
    diagnosticLines (postAPI request url requestBody expectedStatusCode
        expectedSchema retryCount).2 =
      (mismatchedRequests (fun n => request.post url requestBody n)
          expectedStatusCode
          (postAPI request url requestBody expectedStatusCode expectedSchema
            retryCount).2).map
        (fun j => diagnosticLine (j + 1) url) ∧
    diagnosticLines (putAPI request url requestBody expectedStatusCode
        expectedSchema retryCount).2 =
      (mismatchedRequests (fun n => request.put url requestBody n)
          expectedStatusCode
          (putAPI request url requestBody expectedStatusCode expectedSchema
            retryCount).2).map
        (fun j => diagnosticLine (j + 1) url) ∧
    diagnosticLines (deleteAPI request url expectedStatusCode expectedSchema
        retryCount).2 =
      (mismatchedRequests (fun n => request.delete url n) expectedStatusCode
          (deleteAPI request url expectedStatusCode expectedSchema
            retryCount).2).map
        (fun j => diagnosticLine (j + 1) url) := by
  refine ⟨?_, ?_, ?_, ?_⟩
  · rw [getAPI_eq_retryLoop]
    exact retryLoop_diagnostics_per_mismatch _ url expectedStatusCode
      expectedSchema retryCount.toNat 0
  · rw [postAPI_eq_retryLoop]
    exact retryLoop_diagnostics_per_mismatch _ url expectedStatusCode
      expectedSchema retryCount.toNat 0
  · rw [putAPI_eq_retryLoop]
    exact retryLoop_diagnostics_per_mismatch _ url expectedStatusCode
      expectedSchema retryCount.toNat 0
  · rw [deleteAPI_eq_retryLoop]
    exact retryLoop_diagnostics_per_mismatch _ url expectedStatusCode
      expectedSchema retryCount.toNat 0

/-- Witness for C5 at a concrete exhaustion run: the always-404 executor
with bound 5 satisfies the per-mismatched-attempt characterization, and its
diagnostic lines are exactly the five lines for attempts 1 through 5 — the
spec's five-requests, five-diagnostic-lines scenario. -/
theorem helpers_diagnostics_exactly_per_mismatched_attempt_witness :
    diagnosticLines (getAPI (demoContext demoAlways404) "url" 200
        demoOkSchema [] [] ((5 : Nat) : Int)).2 =
      (mismatchedRequests
          (fun n => (demoContext demoAlways404).get "url" [] [] n) 200
          (getAPI (demoContext demoAlways404) "url" 200 demoOkSchema [] []
            ((5 : Nat) : Int)).2).map
        (fun j => diagnosticLine (j + 1) "url") ∧
    diagnosticLines (getAPI (demoContext demoAlways404) "url" 200
        demoOkSchema [] [] ((5 : Nat) : Int)).2 =
      (List.range 5).map fun j => diagnosticLine (j + 1) "url" := by
  constructor
  · exact (helpers_diagnostics_exactly_per_mismatched_attempt
      (demoContext demoAlways404) "url" 200 demoOkSchema [] [] ()
      ((5 : Nat) : Int)).1
  · decide

/-- C6: when the caller of `getAPI`, `postAPI`, `putAPI` or `deleteAPI`
does not supply a retry count, the maximum attempt bound defaults to 5:
the call equals the call with retry count 5, and a call that never sees the
expected status issues exactly 5 requests. -/
theorem helpers_default_retry_count_is_five {B J : Type}
    (request : APIRequestContext B J) (url : String)
    (expectedStatusCode : Int) (expectedSchema : J → Except String J)
    (parameters headers : List (String × String)) (requestBody : B) :
    getAPI request url expectedStatusCode expectedSchema parameters headers =
      getAPI request url expectedStatusCode expectedSchema parameters
        headers 5 ∧
    postAPI request url requestBody expectedStatusCode expectedSchema =
      postAPI request url requestBody expectedStatusCode expectedSchema 5 ∧
    putAPI request url requestBody expectedStatusCode expectedSchema =
      putAPI request url requestBody expectedStatusCode expectedSchema 5 ∧
    deleteAPI request url expectedStatusCode expectedSchema =
      deleteAPI request url expectedStatusCode expectedSchema 5 ∧
    (mismatchBefore (fun n => request.get url parameters headers n)
        expectedStatusCode 5 →
      requestCount (getAPI request url expectedStatusCode expectedSchema
          parameters headers).2 = 5) ∧
    (mismatchBefore (fun n => request.post url requestBody n)
        expectedStatusCode 5 →
      requestCount (postAPI request url requestBody expectedStatusCode
          expectedSchema).2 = 5) ∧
    (mismatchBefore (fun n => request.put url requestBody n)
        expectedStatusCode 5 →
      requestCount (putAPI request url requestBody expectedStatusCode
          expectedSchema).2 = 5) ∧
    (mismatchBefore (fun n => request.delete url n) expectedStatusCode 5 →
      requestCount (deleteAPI request url expectedStatusCode
          expectedSchema).2 = 5) := by
  refine ⟨rfl, rfl, rfl, rfl, ?_, ?_, ?_, ?_⟩ <;> intro hmm
  · rw [getAPI_eq_retryLoop]
    exact (retryLoop_exhaust_zero
      (fun n => request.get url parameters headers n) url expectedStatusCode
      expectedSchema 5 hmm).2.1
  · rw [postAPI_eq_retryLoop]
    exact (retryLoop_exhaust_zero
      (fun n => request.post url requestBody n) url expectedStatusCode
      expectedSchema 5 hmm).2.1
  · rw [putAPI_eq_retryLoop]
    exact (retryLoop_exhaust_zero
      (fun n => request.put url requestBody n) url expectedStatusCode
      expectedSchema 5 hmm).2.1
  · rw [deleteAPI_eq_retryLoop]
    exact (retryLoop_exhaust_zero
      (fun n => request.delete url n) url expectedStatusCode
      expectedSchema 5 hmm).2.1

/-- Witness for C6 at a concrete input: with the always-404 executor and no
retry count supplied, `getAPI` issues exactly 5 requests. -/
theorem helpers_default_retry_count_is_five_witness :
    requestCount (getAPI (demoContext demoAlways404) "url" 200
        demoOkSchema [] []).2 = 5 := by
  have h := helpers_default_retry_count_is_five (demoContext demoAlways404)
    "url" 200 demoOkSchema [] [] ()
  exact h.2.2.2.2.1 (fun j hj => ⟨demoResponse 404, rfl, by decide⟩)

/-- C7: `getAPI`, `postAPI`, `putAPI` and `deleteAPI` are four instances of
the one parameterized operation `apiCall`: for every URL, expected status
code, schema, retry count and executor behavior, each helper call equals
`apiCall` applied to the corresponding tagged method variant — identical
retry, status-comparison, parse/validate, diagnostic and error behavior,
differing only in the HTTP method invoked and in the options passed (GET:
query parameters and headers; POST/PUT: a body; DELETE: neither). -/
theorem helpers_collapse_to_one_operation {B J : Type}
    (request : APIRequestContext B J) (url : String)
    (expectedStatusCode : Int) (expectedSchema : J → Except String J)
    (parameters headers : List (String × String)) (requestBody : B)
    (retryCount : Int) :
    getAPI request url expectedStatusCode expectedSchema parameters headers
        retryCount =
      apiCall request url (.get parameters headers) expectedStatusCode
        expectedSchema retryCount ∧
    postAPI request url requestBody expectedStatusCode expectedSchema
        retryCount =
      apiCall request url (.post requestBody) expectedStatusCode
        expectedSchema retryCount ∧
    putAPI request url requestBody expectedStatusCode expectedSchema
        retryCount =
      apiCall request url (.put requestBody) expectedStatusCode
        expectedSchema retryCount ∧
    deleteAPI request url expectedStatusCode expectedSchema retryCount =
      apiCall request url .delete expectedStatusCode expectedSchema
        retryCount := by
  refine ⟨?_, ?_, ?_, ?_⟩
  · rw [getAPI_eq_retryLoop]
    unfold apiCall
    have hex : (MethodRequest.get parameters headers).execute request url =
        fun n => request.get url parameters headers n :=
      funext fun n => rfl
    rw [hex]
  · rw [postAPI_eq_retryLoop]
    unfold apiCall
    have hex : (MethodRequest.post requestBody :
        MethodRequest B).execute request url =
        fun n => request.post url requestBody n :=
      funext fun n => rfl
    rw [hex]
  · rw [putAPI_eq_retryLoop]
    unfold apiCall
    have hex : (MethodRequest.put requestBody :
        MethodRequest B).execute request url =
        fun n => request.put url requestBody n :=
      funext fun n => rfl
    rw [hex]
  · rw [deleteAPI_eq_retryLoop]
    unfold apiCall
    have hex : (MethodRequest.delete : MethodRequest B).execute request url =
        fun n => request.delete url n :=
      funext fun n => rfl
    rw [hex]

/-- C8: if the request executor throws an exception on an attempt (after m
mismatched attempts, with m < N), `getAPI` — and each sibling helper —
propagates that exception immediately: the loop catches nothing, exactly
m + 1 requests were issued, and no diagnostic line is emitted for the
throwing attempt (only the m lines of the earlier mismatched attempts). -/
theorem helpers_propagate_executor_exception {B J : Type}
    (request : APIRequestContext B J) (url : String)
    (expectedStatusCode : Int) (expectedSchema : J → Except String J)
    (parameters headers : List (String × String)) (requestBody : B)
    (N m : Nat) (hmN : m < N) (e : String) :
    (mismatchBefore (fun n => request.get url parameters headers n)
        expectedStatusCode m →
      request.get url parameters headers m = .error e →
      (getAPI request url expectedStatusCode expectedSchema parameters
          headers (N : Int)).1 = .error (.execError e) ∧
      requestCount (getAPI request url expectedStatusCode expectedSchema
          parameters headers (N : Int)).2 = m + 1 ∧
      diagnosticLines (getAPI request url expectedStatusCode expectedSchema
          parameters headers (N : Int)).2 =
        (List.range m).map fun j => diagnosticLine (j + 1) url) ∧
    (mismatchBefore (fun n => request.post url requestBody n)
        expectedStatusCode m →
      request.post url requestBody m = .error e →
      (postAPI request url requestBody expectedStatusCode expectedSchema
          (N : Int)).1 = .error (.execError e) ∧
      requestCount (postAPI request url requestBody expectedStatusCode
          expectedSchema (N : Int)).2 = m + 1 ∧
      diagnosticLines (postAPI request url requestBody expectedStatusCode
          expectedSchema (N : Int)).2 =
        (List.range m).map fun j => diagnosticLine (j + 1) url) ∧
    (mismatchBefore (fun n => request.put url requestBody n)
        expectedStatusCode m →
      request.put url requestBody m = .error e →
      (putAPI request url requestBody expectedStatusCode expectedSchema
          (N : Int)).1 = .error (.execError e) ∧
      requestCount (putAPI request url requestBody expectedStatusCode
          expectedSchema (N : Int)).2 = m + 1 ∧
      diagnosticLines (putAPI request url requestBody expectedStatusCode
          expectedSchema (N : Int)).2 =
        (List.range m).map fun j => diagnosticLine (j + 1) url) ∧
    (mismatchBefore (fun n => request.delete url n) expectedStatusCode m →
      request.delete url m = .error e →
      (deleteAPI request url expectedStatusCode expectedSchema
          (N : Int)).1 = .error (.execError e) ∧
      requestCount (deleteAPI request url expectedStatusCode expectedSchema
          (N : Int)).2 = m + 1 ∧
      diagnosticLines (deleteAPI request url expectedStatusCode
          expectedSchema (N : Int)).2 =
        (List.range m).map fun j => diagnosticLine (j + 1) url) := by
  refine ⟨?_, ?_, ?_, ?_⟩ <;> intro hmm hexec
  · rw [getAPI_eq_retryLoop, Int.toNat_natCast]
    exact retryLoop_execError_zero
      (fun n => request.get url parameters headers n) url expectedStatusCode
      expectedSchema N m hmN hmm e hexec
  · rw [postAPI_eq_retryLoop, Int.toNat_natCast]
    exact retryLoop_execError_zero
      (fun n => request.post url requestBody n) url expectedStatusCode
      expectedSchema N m hmN hmm e hexec
  · rw [putAPI_eq_retryLoop, Int.toNat_natCast]
    exact retryLoop_execError_zero
      (fun n => request.put url requestBody n) url expectedStatusCode
      expectedSchema N m hmN hmm e hexec
  · rw [deleteAPI_eq_retryLoop, Int.toNat_natCast]
    exact retryLoop_execError_zero
      (fun n => request.delete url n) url expectedStatusCode
      expectedSchema N m hmN hmm e hexec

/-- Witness for C8 at a concrete input: executor returns 500 on attempt 1
and throws "ECONNRESET" on attempt 2, bound N = 5 — the exception
propagates after exactly 2 requests, with one diagnostic line (attempt 1
only). -/
theorem helpers_propagate_executor_exception_witness :
    (getAPI (demoContext demoBoom) "url" 200 demoOkSchema [] []
        ((5 : Nat) : Int)).1 = .error (.execError "ECONNRESET") ∧
    requestCount (getAPI (demoContext demoBoom) "url" 200 demoOkSchema
        [] [] ((5 : Nat) : Int)).2 = 2 ∧
    diagnosticLines (getAPI (demoContext demoBoom) "url" 200 demoOkSchema
        [] [] ((5 : Nat) : Int)).2 =
      (List.range 1).map fun j => diagnosticLine (j + 1) "url" := by
  have h := helpers_propagate_executor_exception (demoContext demoBoom)
    "url" 200 demoOkSchema [] [] () 5 1 (by norm_num) "ECONNRESET"
  exact h.1
    (fun j hj => by
      interval_cases j
      exact ⟨demoResponse 500, rfl, by decide⟩)
    rfl

/-- C9: for every retryCount ≤ 0, `getAPI` — and each sibling helper —
issues zero HTTP requests, emits zero diagnostic lines, and throws the
exhaustion error: the documented lower bound of 1 on the attempt count is
not enforced. -/
theorem helpers_nonpositive_retry_count {B J : Type}
    (request : APIRequestContext B J) (url : String)
    (expectedStatusCode : Int) (expectedSchema : J → Except String J)
    (parameters headers : List (String × String)) (requestBody : B)
    (retryCount : Int) (hrc : retryCount ≤ 0) :
    getAPI request url expectedStatusCode expectedSchema parameters headers
        retryCount = (.error .maxRetries, []) ∧
    postAPI request url requestBody expectedStatusCode expectedSchema
        retryCount = (.error .maxRetries, []) ∧
    putAPI request url requestBody expectedStatusCode expectedSchema
        retryCount = (.error .maxRetries, []) ∧
    deleteAPI request url expectedStatusCode expectedSchema retryCount =
      (.error .maxRetries, []) := by
  have h0 : retryCount.toNat = 0 := Int.toNat_of_nonpos hrc
  refine ⟨?_, ?_, ?_, ?_⟩
  · rw [getAPI_eq_retryLoop, h0]; rfl
  · rw [postAPI_eq_retryLoop, h0]; rfl
  · rw [putAPI_eq_retryLoop, h0]; rfl
  · rw [deleteAPI_eq_retryLoop, h0]; rfl

/-- Witness for C9 at a concrete input: retryCount = -2 yields the
exhaustion error with an empty trace (zero requests, zero diagnostics). -/
theorem helpers_nonpositive_retry_count_witness :
    getAPI (demoContext demoFlaky) "url" 200 demoOkSchema [] [] (-2) =
      (.error .maxRetries, []) := by
  exact (helpers_nonpositive_retry_count (demoContext demoFlaky) "url" 200
    demoOkSchema [] [] () (-2) (by norm_num)).1

/-- Deterministic fixture generator used by the C10 witness: each range
generator returns its lower bound. -/
def demoFaker : Faker :=
  { numberInt := fun lo _ _ => lo
    stringUuid := fun _ => "uuid"
    personFirstName := fun _ => "fn"
    personLastName := fun _ => "ln"
    internetEmail := fun _ => "e@x.io"
    internetPassword := fun _ => "pw"
    phoneNumber := fun _ => "123" }

/-- C10: for every integer n, `createRandomUsersRequestBody fk n` returns an
array of exactly max(n, 0) user objects (the empty array when n ≤ 0), where
— under the fixture generator's range contract — every element has an id
between 1 and 100000, a userStatus between 0 and 10, and a username
beginning with the literal "TestUserName-test-automation-delete-me-". -/
theorem createRandomUsers_shape (fk : Faker)
    (hrange : ∀ lo hi i, lo ≤ hi →
      lo ≤ fk.numberInt lo hi i ∧ fk.numberInt lo hi i ≤ hi)
    (n : Int) :
    ((createRandomUsersRequestBody fk n).length : Int) = max n 0 ∧
    (n ≤ 0 → createRandomUsersRequestBody fk n = []) ∧
    ∀ u ∈ createRandomUsersRequestBody fk n,
      (1 ≤ u.id ∧ u.id ≤ 100000) ∧
      (0 ≤ u.userStatus ∧ u.userStatus ≤ 10) ∧
      ∃ rest, u.username =
        "TestUserName-test-automation-delete-me-" ++ rest := by
  refine ⟨?_, ?_, ?_⟩
  · simp [createRandomUsersRequestBody, Int.toNat_eq_max]
  · intro hn
    simp [createRandomUsersRequestBody, Int.toNat_of_nonpos hn]
  · intro u hu
    simp only [createRandomUsersRequestBody, List.mem_map] at hu
    obtain ⟨i, hi, rfl⟩ := hu
    exact ⟨hrange 1 100000 i (by norm_num), hrange 0 10 i (by norm_num),
      ⟨fk.stringUuid i, rfl⟩⟩

/-- Witness for C10 at a concrete input: the deterministic fixture
generator and n = 2 give an array of length 2. -/
theorem createRandomUsers_shape_witness :
    ((createRandomUsersRequestBody demoFaker 2).length : Int) = max 2 0 := by
  exact (createRandomUsers_shape demoFaker
    (fun lo hi i h => ⟨le_refl lo, h⟩) 2).1
